import Mathlib

/-
Verification development for the ngenate-flex-storage crate.

The Rust sources are shallowly embedded as executable Lean definitions:

* A std RwLock is modelled by its observable lock state (`LockSt`): a reader
  count plus a writer flag.  `try_read` succeeds exactly when no writer holds
  the lock; `try_write` succeeds exactly when the lock is completely free.
* Rust outcomes are modelled by `Outcome`: a normal `ok` value, a recoverable
  `errored String` (the crate uses `SimpleResult<T> = Result<T, String>`),
  or `panicked String` for a Rust panic (assert failure, `unwrap` on `Err`,
  explicit `panic`).
* `Arc<RwLock<dyn Storage>>` cells live in a heap `Heap : Nat -> Option Cell`;
  an `Arw` pointer is a heap address.  Storage payloads are monomorphised at
  `Key = usize` and `Item` a numeric type, which is what every claim exercises;
  the runtime type tag of a payload (`StorageData.typeId`) models
  `Any::type_id` as exposed through `Storage::as_any`.
-/

/-- Observable state of a `std::sync::RwLock`: how many shared (read) guards
are outstanding and whether an exclusive (write) guard is outstanding. -/
structure LockSt where
  readers : Nat
  writer : Bool
deriving DecidableEq, Repr

/-- A lock with no outstanding guards. -/
def LockSt.unlocked : LockSt := ⟨0, false⟩

/-- `RwLock::try_read` succeeds iff no writer holds the lock. -/
def LockSt.canRead (l : LockSt) : Bool := !l.writer

/-- `RwLock::try_write` succeeds iff the lock is completely free. -/
def LockSt.canWrite (l : LockSt) : Bool := !l.writer && l.readers == 0

/-- Result of running a fallible Rust operation: normal return, recoverable
`Err(String)` (`SimpleResult`), or a Rust panic. -/
inductive Outcome (α : Type) where
  | panicked (msg : String)
  | errored (msg : String)
  | ok (a : α)
deriving DecidableEq, Repr

/-- Runtime type tags of the concrete storage types that participate in the
casting subsystem (the tag a `TypeId::of::<T>()` comparison sees). -/
inductive StorageTypeId where
  | vecStorage
  | hashMapStorage
  | keyItemViewStorage
deriving DecidableEq, Repr

/-- Payload of a storage cell, monomorphised at `Key = usize`, `Item = numeric`.
`vec` models `VecStorage`, `hashMap` models `HashMapStorage` (present so that a
mismatching concrete target type exists), `view` models the part of a
`KeyItemViewStorage` visible to the casting layer. -/
inductive StorageData where
  | vec (data : List Nat)
  | hashMap (data : List (Nat × Nat))
  | view (viewKeys : List Nat) (inputSet : Bool)
deriving DecidableEq, Repr

/-- The runtime type identity of a payload, as returned by
`borrow.as_any().type_id()` in `dyn_storage_into_sized`. -/
def StorageData.typeId : StorageData → StorageTypeId
  | .vec _ => .vecStorage
  | .hashMap _ => .hashMapStorage
  | .view _ _ => .keyItemViewStorage

/-- `std::any::type_name` for the modelled concrete types. -/
def typeName : StorageTypeId → String
  | .vecStorage => "VecStorage"
  | .hashMapStorage => "HashMapStorage"
  | .keyItemViewStorage => "KeyItemViewStorage"

/-- One `Arc<RwLock<...>>` cell: its lock state and its payload. -/
structure Cell where
  lock : LockSt
  data : StorageData
deriving DecidableEq, Repr

/-- The heap of `Arc<RwLock<dyn Storage>>` cells, addressed by `Nat`. -/
def Heap : Type := Nat → Option Cell

/-- Store a cell at an address (used to model `Arc::new(RwLock::new(v))`). -/
def Heap.set (h : Heap) (a : Nat) (c : Cell) : Heap :=
  fun x => if x = a then some c else h x

/-- The empty heap. -/
def Heap.empty : Heap := fun _ => none

/-- `casting::dyn_storage_into_sized::<SourceStorage, TargetStorageType>`.

The Rust function first runs `source_storage.try_read().unwrap()` — so if a
writer holds the cell lock, the failed `try_read` is unwrapped and the thread
panics (the source marks this `TODO: #HIGH return an error instead of
unwrapping`).  With the transient read guard held it compares the payload
runtime type id against the target type; a mismatch returns the descriptive
`Err` built from `type_name::<SourceStorage>()` and
`type_name::<TargetStorageType>()`, and on a match the `Arc` is reinterpreted
at the same address (no data is read or written either way). -/
def dyn_storage_into_sized (sourceName : String) (target : StorageTypeId)
    (h : Heap) (a : Nat) : Outcome Unit :=
  match h a with
  | none => .panicked "dangling Arc"
  | some cell =>
    if cell.lock.canRead then
      if cell.data.typeId = target then .ok ()
      else .errored ("Invalid cast to sized from " ++ sourceName ++ " into "
        ++ typeName target)
    else .panicked "called unwrap on an Err value returned by try_read"

/-- `InputStorageLockStatus` from `view_storage_controller.rs`:
`None` (view not created), `Readable`, `Writable`. -/
inductive InputStorageLockStatus where
  | none
  | readable
  | writable
deriving DecidableEq, Repr

/-- `StorageHandle`: addresses of the two shared-ownership references (the
root `base_storage` pointer and the currently typed `storage` pointer), the
optional view controller (identified with its shared status cell), and the
Key/Item type tags recorded at construction. -/
structure StorageHandle where
  base_storage : Nat
  storage : Nat
  view_storage_controller : Option InputStorageLockStatus
  key_type_id : Nat
  item_type_id : Nat
deriving DecidableEq, Repr

/-- `StorageHandleBuilder` state after `StorageHandleBuilder::new`. -/
structure StorageHandleBuilder where
  base_storage : Nat
  key_type_id : Nat
  item_type_id : Nat
  view_storage_controller : Option InputStorageLockStatus
deriving DecidableEq, Repr

/-- `StorageHandleBuilder::new`: records the base storage pointer and the
Key/Item type ids; no view controller yet. -/
def StorageHandleBuilder.new (a kt it : Nat) : StorageHandleBuilder :=
  ⟨a, kt, it, Option.none⟩

/-- `StorageHandleBuilder::add_view_controller`: attaches a controller whose
status cell starts at `InputStorageLockStatus::None`. -/
def StorageHandleBuilder.add_view_controller
    (b : StorageHandleBuilder) : StorageHandleBuilder :=
  { b with view_storage_controller := some .none }

/-- `StorageHandleBuilder::build`: the handle starts with `storage` and
`base_storage` aliasing the same cell. -/
def StorageHandleBuilder.build (b : StorageHandleBuilder) : StorageHandle :=
  { base_storage := b.base_storage
    storage := b.base_storage
    view_storage_controller := b.view_storage_controller
    key_type_id := b.key_type_id
    item_type_id := b.item_type_id }

/-- `builder(storage).build()` where `storage.into()` allocates the
`Arc<RwLock<...>>` cell at the fresh address `a` with an unlocked lock. -/
def buildStorage (h : Heap) (a : Nat) (d : StorageData) (kt it : Nat) :
    StorageHandle × Heap :=
  ((StorageHandleBuilder.new a kt it).build,
    h.set a ⟨LockSt.unlocked, d⟩)

/-- `StorageHandle::cast_to_sized_storage::<TargetType>`: delegates to
`dyn_storage_into_sized` on the handle `storage` pointer and, on success,
wraps the reinterpreted `Arc` (same address) in a new handle carrying over
the base pointer, view controller and type tags. -/
def StorageHandle.cast_to_sized_storage (hp : Heap) (hd : StorageHandle)
    (sourceName : String) (target : StorageTypeId) : Outcome StorageHandle :=
  match dyn_storage_into_sized sourceName target hp hd.storage with
  | .ok _ =>
    .ok
      { base_storage := hd.base_storage
        storage := hd.storage
        view_storage_controller := hd.view_storage_controller
        key_type_id := hd.key_type_id
        item_type_id := hd.item_type_id }
  | .errored m => .errored m
  | .panicked m => .panicked m

/-- `handle::storage_ptr_into_base`: builds a fresh handle via
`StorageHandle::new(base, base, key_tid, item_tid)` — both pointers are the
retained root reference and `StorageHandle::new` sets
`view_storage_controller: None`.  (The Rust function wraps this in `Ok`;
it cannot fail.) -/
def storage_ptr_into_base (hd : StorageHandle) : StorageHandle :=
  { base_storage := hd.base_storage
    storage := hd.base_storage
    view_storage_controller := Option.none
    key_type_id := hd.key_type_id
    item_type_id := hd.item_type_id }

/-- `StorageHandle::try_read`: if a view controller is attached and its status
is `None`, fail before touching the storage lock; otherwise non-blocking
`RwLock::try_read` on the storage cell lock. -/
def StorageHandle.try_read (hd : StorageHandle) (lock : LockSt) :
    Except String Unit :=
  if hd.view_storage_controller = some InputStorageLockStatus.none then
    .error "Cannot aquire a read lock on the ViewStorage as ViewController status == None. A View must be created first using the ViewController"
  else if lock.canRead then .ok ()
  else .error "Failed to aquire read guard"

/-- `StorageHandle::try_write`: same view-controller gate, then non-blocking
`RwLock::try_write`. -/
def StorageHandle.try_write (hd : StorageHandle) (lock : LockSt) :
    Except String Unit :=
  if hd.view_storage_controller = some InputStorageLockStatus.none then
    .error "Cannot aquire a write lock on the ViewStorage as ViewController status == None. A View must be created first using the ViewController"
  else if lock.canWrite then .ok ()
  else .error "Failed to aquire write guard"

/-
Filtering-view subsystem.  A `ViewSys` bundles the state every view operation
touches: the controller status cell, the `KeyItemViewStorage` backend fields
(`view_keys`, whether `input_storage` is set, which retained guardian guard is
held), the contents of the input `VecStorage`, the lock on the input cell
(held by the retained guardian guards and by any direct accessors), and the
lock on the view-storage cell itself (taken transiently by the controller).
All view scenarios in the claims use `Key = usize`, `Item` numeric, and a
`VecStorage` input, which is what the model monomorphises to.
-/

/-- Combined state of a `StorageHandle`-attached `ViewStorageController`, its
`KeyItemViewStorage` backend and the input `VecStorage` it filters. -/
structure ViewSys where
  status : InputStorageLockStatus
  view_keys : List Nat
  input_set : Bool
  input_data : List Nat
  read_guard : Bool
  write_guard : Bool
  input_lock : LockSt
  view_lock : LockSt
deriving DecidableEq, Repr

/-- State right after `builder.add_view_controller().build()` with a fresh
`KeyItemViewStorage::new()` backend: status `None`, no keys, no input, no
guards, both locks free. -/
def ViewSys.init : ViewSys :=
  ⟨.none, [], false, [], false, false, LockSt.unlocked, LockSt.unlocked⟩

/-- Outcome of a controller call together with the state it leaves behind
(error paths return before any mutation, so they leave the state intact). -/
structure OpResult where
  outcome : Outcome Unit
  state : ViewSys
deriving DecidableEq, Repr

/-- `KeyItemViewStorage::clear_view` (the `ViewStorageSetup` impl): clears the
selected-key list and drops both retained guards, which releases whatever
hold they had on the input cell lock. -/
def KeyItemViewStorage.clear_view_backend (s : ViewSys) : ViewSys :=
  { s with
    view_keys := []
    read_guard := false
    write_guard := false
    input_lock :=
      ⟨s.input_lock.readers - (if s.read_guard then 1 else 0),
        if s.write_guard then false else s.input_lock.writer⟩ }

/-- `ViewStorageController::create_read_view`: checks the status cell first
(error if not `None`), then casts the view cell to `dyn ViewStorageSetup`
(`dyn_storage_into_sized` panics on its internal `try_read().unwrap()` if a
writer holds the view cell lock), takes a transient write guard on the view
cell, and runs the backend `create_read_view`, which requires the input to be
set and acquires the retained guardian read guard on the input cell before
replacing the selected keys.  Only then does the status move to `Readable`. -/
def ViewStorageController.create_read_view (s : ViewSys) (keys : List Nat) :
    OpResult :=
  if s.status ≠ InputStorageLockStatus.none then
    ⟨.errored "Failed to create view. A read or write guard has already been aquired on the view. You must call clear before changing input", s⟩
  else if s.view_lock.writer then
    ⟨.panicked "called unwrap on an Err value returned by try_read", s⟩
  else if s.view_lock.readers ≠ 0 then
    ⟨.errored "Failed to aquire view storage write guard", s⟩
  else if !s.input_set then
    ⟨.errored "Input storage not set", s⟩
  else if s.input_lock.writer then
    ⟨.errored "Could not aquire read lock on input storage", s⟩
  else
    ⟨.ok (),
      { s with
        read_guard := true
        view_keys := keys
        input_lock :=
          ⟨s.input_lock.readers + 1 - (if s.read_guard then 1 else 0),
            s.input_lock.writer⟩
        status := .readable }⟩

/-- `ViewStorageController::create_write_view`: same shape, but the backend
acquires the retained guardian write guard on the input cell, and the status
moves to `Writable`. -/
def ViewStorageController.create_write_view (s : ViewSys) (keys : List Nat) :
    OpResult :=
  if s.status ≠ InputStorageLockStatus.none then
    ⟨.errored "Failed to create view. A read or write guard has already been aquired on the view. You must call clear before changing input", s⟩
  else if s.view_lock.writer then
    ⟨.panicked "called unwrap on an Err value returned by try_read", s⟩
  else if s.view_lock.readers ≠ 0 then
    ⟨.errored "Failed to aquire view storage write guard", s⟩
  else if !s.input_set then
    ⟨.errored "Input storage not set", s⟩
  else if !s.input_lock.canWrite then
    ⟨.errored "Could not aquire write lock on input storage", s⟩
  else
    ⟨.ok (),
      { s with
        write_guard := true
        view_keys := keys
        input_lock := ⟨s.input_lock.readers, true⟩
        status := .writable }⟩

/-- `ViewStorageController::clear_view`: casts the view cell (panics under a
writer on the view cell lock), takes a transient write guard on the view
cell, runs the backend `clear_view`, and resets the status cell to `None`.
There is no status precondition. -/
def ViewStorageController.clear_view (s : ViewSys) : OpResult :=
  if s.view_lock.writer then
    ⟨.panicked "called unwrap on an Err value returned by try_read", s⟩
  else if s.view_lock.readers ≠ 0 then
    ⟨.errored "Failed to aquire view storage write guard", s⟩
  else
    ⟨.ok (),
      { KeyItemViewStorage.clear_view_backend s with status := .none }⟩

/-- `ViewStorageController::set_input`: errors if the status is not `None`;
otherwise casts and write-locks the view cell, then the backend
`set_input_storage` first runs `clear_view` (dropping guards and keys) and
stores the new input.  (The backend downcasts the new input cell with
`dyn_storage_into_sized(..).unwrap()`; the model assumes the freshly supplied
input cell is unlocked and of the expected concrete type, as in every caller
in the crate.) -/
def ViewStorageController.set_input (s : ViewSys) (newData : List Nat) :
    OpResult :=
  if s.status ≠ InputStorageLockStatus.none then
    ⟨.errored "Failed to set input. A read or write guard has already been aquired on the view. You must call clear before changing input", s⟩
  else if s.view_lock.writer then
    ⟨.panicked "called unwrap on an Err value returned by try_read", s⟩
  else if s.view_lock.readers ≠ 0 then
    ⟨.errored "Failed to aquire view storage write guard", s⟩
  else
    ⟨.ok (),
      { KeyItemViewStorage.clear_view_backend s with
        input_set := true
        input_data := newData }⟩

/-- `ViewStorageController::status`: a pure read of the status cell. -/
def ViewStorageController.status (s : ViewSys) : InputStorageLockStatus :=
  s.status

/-- `VecStorage::get` at `Key = usize` (where `key_to_index` is the identity):
plain bounds-checked indexing. -/
def VecStorage.get_usize (data : List Nat) (k : Nat) : Option Nat :=
  data.get? k

/-- `VecStorage::contains` at `Key = usize`: index below length. -/
def VecStorage.contains_usize (data : List Nat) (k : Nat) : Bool :=
  decide (k < data.length)

/-- `KeyItemViewStorage::get`: with the read guard active, `key` is used as a
position into `view_keys`; the resolved source key is looked up in the input
through the guard.  The same is repeated for the write guard; with no guard
active the result is `None`. -/
def KeyItemViewStorage.get (s : ViewSys) (key : Nat) : Option Nat :=
  if s.read_guard then
    match s.view_keys.get? key with
    | some k => VecStorage.get_usize s.input_data k
    | Option.none => Option.none
  else if s.write_guard then
    match s.view_keys.get? key with
    | some k => VecStorage.get_usize s.input_data k
    | Option.none => Option.none
  else Option.none

/-- `KeyItemViewStorage::contains` (the `KeyStorage` impl): resolves the
position through `view_keys` and checks source containment, but only through
the read guard — the write guard is not consulted. -/
def KeyItemViewStorage.contains (s : ViewSys) (key : Nat) : Bool :=
  if s.read_guard then
    match s.view_keys.get? key with
    | some k => VecStorage.contains_usize s.input_data k
    | Option.none => false
  else false

/-- `KeysToItemsIter::next`, run to exhaustion: each selected key is looked
up in the input; a missing key ends the iteration (`next` returns `None`). -/
def keysToItemsList (inputData : List Nat) : List Nat → List (Nat × Nat)
  | [] => []
  | k :: rest =>
    match VecStorage.get_usize inputData k with
    | Option.none => []
    | some it => (k, it) :: keysToItemsList inputData rest

/-- `KeyItemViewStorage::key_item_iter` via `key_item_iter_static`: iterates
through whichever guard is active and panics if neither guard is held. -/
def KeyItemViewStorage.key_item_iter (s : ViewSys) :
    Outcome (List (Nat × Nat)) :=
  if s.read_guard then .ok (keysToItemsList s.input_data s.view_keys)
  else if s.write_guard then .ok (keysToItemsList s.input_data s.view_keys)
  else .panicked "Cannot create an iterator without first creating view data"

/-
Key-domain model for index-oriented backends (claim C8).  `KeyTrait` keys are
convertible to the `usize` index domain with `TryInto<usize>`; at the type
level `supports_index()` says whether every value converts.  `u128` is the
crate example of a non-index key type: values up to `usize::MAX` convert,
larger values do not.
-/

/-- `usize::MAX` on the 64-bit targets the crate builds for. -/
def usizeMax : Nat := 2 ^ 64 - 1

/-- `storage_types::key_to_index` for a `u128` key value: `try_into` succeeds
exactly for values representable in `usize`; otherwise the function panics. -/
def key_to_index_u128 (k : Nat) : Outcome Nat :=
  if k ≤ usizeMax then .ok k
  else .panicked "Key could not be converted to usize"

/-- `VecStorage::new` / `new_from_iter`: asserts `Key::supports_index()`,
a type-level precondition that panics at construction. -/
def VecStorage.new_checked (supportsIndex : Bool) (data : List Nat) :
    Outcome (List Nat) :=
  if supportsIndex then .ok data
  else .panicked "assertion failed: Key::supports_index()"

/-- `VecStorage::get` for a `u128` key value: `key_to_index` first (panicking
on an unconvertible value), then bounds-checked indexing returning `None`
past the end. -/
def VecStorage.get_u128 (data : List Nat) (k : Nat) : Outcome (Option Nat) :=
  match key_to_index_u128 k with
  | .ok i => .ok (data.get? i)
  | .errored m => .errored m
  | .panicked m => .panicked m

/-
Claim theorems.
-/

/-- Claim C1.  The spec says a cast to a type the underlying value does not
satisfy always returns a descriptive error and never panics.  The code
evaluated at a failing input: when a writer holds the cell lock (e.g. while a
write view retains the source lock), `dyn_storage_into_sized` panics on its
`try_read().unwrap()` before the type check — the very line the source flags
with `TODO: #HIGH return an error instead of unwrapping`.  With the lock
available, the mismatch path does return the descriptive error naming source
and target types, as claimed. -/
theorem c1_cast_mismatch_panics_under_write_lock :
    dyn_storage_into_sized "dyn Storage" .hashMapStorage
      (Heap.set Heap.empty 0 ⟨⟨0, true⟩, .vec [1, 2, 3]⟩) 0
      = .panicked "called unwrap on an Err value returned by try_read"
    ∧ dyn_storage_into_sized "dyn Storage" .hashMapStorage
      (Heap.set Heap.empty 0 ⟨LockSt.unlocked, .vec [1, 2, 3]⟩) 0
      = .errored "Invalid cast to sized from dyn Storage into HashMapStorage" := by
  constructor <;> rfl

/-- Claim C2.  Building a handle from a concrete value, converting it to the
root capability with `storage_ptr_into_base`, and casting back to the value
concrete type succeeds, yields a handle whose `storage` pointer is the very
cell the build allocated, and that cell still holds the original value. -/
theorem c2_build_to_root_cast_round_trip (h : Heap) (a kt it : Nat)
    (d : StorageData) (_hfresh : h a = none) :
    StorageHandle.cast_to_sized_storage (buildStorage h a d kt it).2
        (storage_ptr_into_base (buildStorage h a d kt it).1)
        "dyn Storage" d.typeId
      = .ok (storage_ptr_into_base (buildStorage h a d kt it).1)
    ∧ (storage_ptr_into_base (buildStorage h a d kt it).1).storage
      = (buildStorage h a d kt it).1.storage
    ∧ (buildStorage h a d kt it).2
        (storage_ptr_into_base (buildStorage h a d kt it).1).storage
      = some ⟨LockSt.unlocked, d⟩ := by
  refine ⟨?_, rfl, ?_⟩ <;>
    simp [buildStorage, storage_ptr_into_base, StorageHandleBuilder.new,
      StorageHandleBuilder.build, StorageHandle.cast_to_sized_storage,
      dyn_storage_into_sized, Heap.set, LockSt.canRead, LockSt.unlocked]

/-- Claim C2 witness: the round trip at a concrete value. -/
theorem c2_build_to_root_cast_round_trip_witness :
    StorageHandle.cast_to_sized_storage
        (buildStorage Heap.empty 0 (.vec [1, 2, 3]) 7 9).2
        (storage_ptr_into_base (buildStorage Heap.empty 0 (.vec [1, 2, 3]) 7 9).1)
        "dyn Storage" (StorageData.vec [1, 2, 3]).typeId
      = .ok (storage_ptr_into_base (buildStorage Heap.empty 0 (.vec [1, 2, 3]) 7 9).1)
    ∧ (storage_ptr_into_base (buildStorage Heap.empty 0 (.vec [1, 2, 3]) 7 9).1).storage
      = (buildStorage Heap.empty 0 (.vec [1, 2, 3]) 7 9).1.storage
    ∧ (buildStorage Heap.empty 0 (.vec [1, 2, 3]) 7 9).2
        (storage_ptr_into_base (buildStorage Heap.empty 0 (.vec [1, 2, 3]) 7 9).1).storage
      = some ⟨LockSt.unlocked, .vec [1, 2, 3]⟩ :=
  c2_build_to_root_cast_round_trip Heap.empty 0 7 9 (.vec [1, 2, 3]) rfl

/-- Claim C4.  With a view controller attached and its status `None`, both
`try_read` and `try_write` fail with the gating error for every state of the
underlying lock (the lock is never consulted).  Without that gate, each is
exactly a non-blocking try-acquisition of the underlying lock in the
requested mode, failing immediately on contention. -/
theorem c4_try_access_view_gate_and_try_lock
    (hd : StorageHandle) (lock : LockSt)
    (hctrl : hd.view_storage_controller = some InputStorageLockStatus.none)
    (hd2 : StorageHandle) (lock2 : LockSt)
    (hctrl2 : hd2.view_storage_controller ≠ some InputStorageLockStatus.none) :
    StorageHandle.try_read hd lock
      = .error "Cannot aquire a read lock on the ViewStorage as ViewController status == None. A View must be created first using the ViewController"
    ∧ StorageHandle.try_write hd lock
      = .error "Cannot aquire a write lock on the ViewStorage as ViewController status == None. A View must be created first using the ViewController"
    ∧ StorageHandle.try_read hd2 lock2
      = (if lock2.canRead then .ok () else .error "Failed to aquire read guard")
    ∧ StorageHandle.try_write hd2 lock2
      = (if lock2.canWrite then .ok () else .error "Failed to aquire write guard") := by
  refine ⟨?_, ?_, ?_, ?_⟩ <;>
    simp [StorageHandle.try_read, StorageHandle.try_write, hctrl, hctrl2]

/-- Claim C4 witness: a gated handle under a free lock still fails; an
ungated handle under a write-locked cell fails with the contention error. -/
theorem c4_try_access_view_gate_and_try_lock_witness :
    StorageHandle.try_read ⟨0, 0, some .none, 0, 0⟩ LockSt.unlocked
      = .error "Cannot aquire a read lock on the ViewStorage as ViewController status == None. A View must be created first using the ViewController"
    ∧ StorageHandle.try_write ⟨0, 0, some .none, 0, 0⟩ LockSt.unlocked
      = .error "Cannot aquire a write lock on the ViewStorage as ViewController status == None. A View must be created first using the ViewController"
    ∧ StorageHandle.try_read ⟨0, 0, Option.none, 0, 0⟩ ⟨0, true⟩
      = (if LockSt.canRead ⟨0, true⟩ then .ok () else .error "Failed to aquire read guard")
    ∧ StorageHandle.try_write ⟨0, 0, Option.none, 0, 0⟩ ⟨0, true⟩
      = (if LockSt.canWrite ⟨0, true⟩ then .ok () else .error "Failed to aquire write guard") :=
  c4_try_access_view_gate_and_try_lock ⟨0, 0, some .none, 0, 0⟩ LockSt.unlocked rfl
    ⟨0, 0, Option.none, 0, 0⟩ ⟨0, true⟩ (by decide)

/-- Claim C10.  `storage_ptr_into_base` always returns a handle whose view
controller field is empty — even when the source handle had one attached —
while the key/item type tags are carried over unchanged and both pointers of
the result are the retained shared base-storage reference. -/
theorem c10_into_base_resets_controller_keeps_tags_and_base
    (hd : StorageHandle) :
    (storage_ptr_into_base hd).view_storage_controller = Option.none
    ∧ (storage_ptr_into_base hd).key_type_id = hd.key_type_id
    ∧ (storage_ptr_into_base hd).item_type_id = hd.item_type_id
    ∧ (storage_ptr_into_base hd).base_storage = hd.base_storage
    ∧ (storage_ptr_into_base hd).storage = hd.base_storage :=
  ⟨rfl, rfl, rfl, rfl, rfl⟩

/-- Claim C3.  The controller status cell starts at `None` (Unset);
`create_read_view` moves `None` to `Readable` and `create_write_view` moves
`None` to `Writable` (on the success path: unlocked view cell, input set,
unlocked input); `clear_view` returns the status to `None` from either; and
while the status is not `None`, `create_read_view`, `create_write_view` and
`set_input` all fail with an error and leave the whole state — in particular
the status — unchanged. -/
theorem c3_view_controller_state_machine
    (s : ViewSys) (keys : List Nat)
    (hstatus : s.status = InputStorageLockStatus.none)
    (hvl : s.view_lock = LockSt.unlocked)
    (hinput : s.input_set = true)
    (hil : s.input_lock = LockSt.unlocked)
    (t : ViewSys) (tkeys newData : List Nat)
    (ht : t.status ≠ InputStorageLockStatus.none) :
    ViewSys.init.status = InputStorageLockStatus.none
    ∧ (ViewStorageController.create_read_view s keys).outcome = .ok ()
    ∧ (ViewStorageController.create_read_view s keys).state.status = .readable
    ∧ (ViewStorageController.create_write_view s keys).outcome = .ok ()
    ∧ (ViewStorageController.create_write_view s keys).state.status = .writable
    ∧ (ViewStorageController.clear_view
        (ViewStorageController.create_read_view s keys).state).outcome = .ok ()
    ∧ (ViewStorageController.clear_view
        (ViewStorageController.create_read_view s keys).state).state.status
      = InputStorageLockStatus.none
    ∧ (ViewStorageController.clear_view
        (ViewStorageController.create_write_view s keys).state).state.status
      = InputStorageLockStatus.none
    ∧ (ViewStorageController.create_read_view t tkeys).outcome
      = .errored "Failed to create view. A read or write guard has already been aquired on the view. You must call clear before changing input"
    ∧ (ViewStorageController.create_read_view t tkeys).state = t
    ∧ (ViewStorageController.create_write_view t tkeys).outcome
      = .errored "Failed to create view. A read or write guard has already been aquired on the view. You must call clear before changing input"
    ∧ (ViewStorageController.create_write_view t tkeys).state = t
    ∧ (ViewStorageController.set_input t newData).outcome
      = .errored "Failed to set input. A read or write guard has already been aquired on the view. You must call clear before changing input"
    ∧ (ViewStorageController.set_input t newData).state = t := by
  refine ⟨rfl, ?_⟩
  simp [ViewStorageController.create_read_view,
    ViewStorageController.create_write_view, ViewStorageController.clear_view,
    ViewStorageController.set_input, KeyItemViewStorage.clear_view_backend,
    hstatus, hvl, hinput, hil, ht, LockSt.unlocked, LockSt.canWrite]

/-- Claim C3 witness: the state machine run at concrete states. -/
theorem c3_view_controller_state_machine_witness :
    ViewSys.init.status = InputStorageLockStatus.none
    ∧ (ViewStorageController.create_read_view
        ⟨.none, [], true, [9], false, false, LockSt.unlocked, LockSt.unlocked⟩
        [0]).outcome = .ok ()
    ∧ (ViewStorageController.create_read_view
        ⟨.none, [], true, [9], false, false, LockSt.unlocked, LockSt.unlocked⟩
        [0]).state.status = .readable
    ∧ (ViewStorageController.create_write_view
        ⟨.none, [], true, [9], false, false, LockSt.unlocked, LockSt.unlocked⟩
        [0]).outcome = .ok ()
    ∧ (ViewStorageController.create_write_view
        ⟨.none, [], true, [9], false, false, LockSt.unlocked, LockSt.unlocked⟩
        [0]).state.status = .writable
    ∧ (ViewStorageController.clear_view
        (ViewStorageController.create_read_view
          ⟨.none, [], true, [9], false, false, LockSt.unlocked, LockSt.unlocked⟩
          [0]).state).outcome = .ok ()
    ∧ (ViewStorageController.clear_view
        (ViewStorageController.create_read_view
          ⟨.none, [], true, [9], false, false, LockSt.unlocked, LockSt.unlocked⟩
          [0]).state).state.status = InputStorageLockStatus.none
    ∧ (ViewStorageController.clear_view
        (ViewStorageController.create_write_view
          ⟨.none, [], true, [9], false, false, LockSt.unlocked, LockSt.unlocked⟩
          [0]).state).state.status = InputStorageLockStatus.none
    ∧ (ViewStorageController.create_read_view
        ⟨.readable, [0], true, [9], true, false, ⟨1, false⟩, LockSt.unlocked⟩
        [1]).outcome
      = .errored "Failed to create view. A read or write guard has already been aquired on the view. You must call clear before changing input"
    ∧ (ViewStorageController.create_read_view
        ⟨.readable, [0], true, [9], true, false, ⟨1, false⟩, LockSt.unlocked⟩
        [1]).state
      = ⟨.readable, [0], true, [9], true, false, ⟨1, false⟩, LockSt.unlocked⟩
    ∧ (ViewStorageController.create_write_view
        ⟨.readable, [0], true, [9], true, false, ⟨1, false⟩, LockSt.unlocked⟩
        [1]).outcome
      = .errored "Failed to create view. A read or write guard has already been aquired on the view. You must call clear before changing input"
    ∧ (ViewStorageController.create_write_view
        ⟨.readable, [0], true, [9], true, false, ⟨1, false⟩, LockSt.unlocked⟩
        [1]).state
      = ⟨.readable, [0], true, [9], true, false, ⟨1, false⟩, LockSt.unlocked⟩
    ∧ (ViewStorageController.set_input
        ⟨.readable, [0], true, [9], true, false, ⟨1, false⟩, LockSt.unlocked⟩
        [4, 5]).outcome
      = .errored "Failed to set input. A read or write guard has already been aquired on the view. You must call clear before changing input"
    ∧ (ViewStorageController.set_input
        ⟨.readable, [0], true, [9], true, false, ⟨1, false⟩, LockSt.unlocked⟩
        [4, 5]).state
      = ⟨.readable, [0], true, [9], true, false, ⟨1, false⟩, LockSt.unlocked⟩ :=
  c3_view_controller_state_machine
    ⟨.none, [], true, [9], false, false, LockSt.unlocked, LockSt.unlocked⟩ [0]
    rfl rfl rfl rfl
    ⟨.readable, [0], true, [9], true, false, ⟨1, false⟩, LockSt.unlocked⟩ [1] [4, 5]
    (by decide)

/-- Claim C5.  With either retained guard active, `KeyItemViewStorage::get`
resolves the view key as a position in the selected-key list and looks the
resolved source key up in the input storage; with no guard active, or with
the position out of range, it returns `None`.  At the documented example —
source items `[0,1,2,3,4]` at keys `0..4`, selection `[2,0,1]` — `get 0 = 2`,
`get 1 = 0`, `get 2 = 1`, through a read guard and through a write guard. -/
theorem c5_view_get_double_indirection
    (s : ViewSys) (key : Nat)
    (hguard : s.read_guard = true ∨ s.write_guard = true)
    (s2 : ViewSys) (key2 : Nat)
    (h2r : s2.read_guard = false) (h2w : s2.write_guard = false)
    (s3 : ViewSys) (key3 : Nat)
    (h3 : s3.view_keys.length ≤ key3) :
    KeyItemViewStorage.get s key
      = (s.view_keys.get? key).bind (VecStorage.get_usize s.input_data)
    ∧ KeyItemViewStorage.get s2 key2 = Option.none
    ∧ KeyItemViewStorage.get s3 key3 = Option.none
    ∧ KeyItemViewStorage.get
        ⟨.readable, [2, 0, 1], true, [0, 1, 2, 3, 4], true, false, ⟨1, false⟩,
          LockSt.unlocked⟩ 0 = some 2
    ∧ KeyItemViewStorage.get
        ⟨.readable, [2, 0, 1], true, [0, 1, 2, 3, 4], true, false, ⟨1, false⟩,
          LockSt.unlocked⟩ 1 = some 0
    ∧ KeyItemViewStorage.get
        ⟨.readable, [2, 0, 1], true, [0, 1, 2, 3, 4], true, false, ⟨1, false⟩,
          LockSt.unlocked⟩ 2 = some 1
    ∧ KeyItemViewStorage.get
        ⟨.writable, [2, 0, 1], true, [0, 1, 2, 3, 4], false, true, ⟨0, true⟩,
          LockSt.unlocked⟩ 0 = some 2
    ∧ KeyItemViewStorage.get
        ⟨.writable, [2, 0, 1], true, [0, 1, 2, 3, 4], false, true, ⟨0, true⟩,
          LockSt.unlocked⟩ 1 = some 0
    ∧ KeyItemViewStorage.get
        ⟨.writable, [2, 0, 1], true, [0, 1, 2, 3, 4], false, true, ⟨0, true⟩,
          LockSt.unlocked⟩ 2 = some 1 := by
  refine ⟨?_, ?_, ?_, by decide, by decide, by decide, by decide, by decide,
    by decide⟩
  · cases hr : s.read_guard with
    | true =>
      simp only [KeyItemViewStorage.get, hr, if_true]
      cases s.view_keys.get? key <;> simp
    | false =>
      have hw : s.write_guard = true := by
        rcases hguard with hg | hg
        · rw [hr] at hg; cases hg
        · exact hg
      simp only [KeyItemViewStorage.get, hr, hw, if_true, if_false,
        Bool.false_eq_true]
      cases s.view_keys.get? key <;> simp
  · simp [KeyItemViewStorage.get, h2r, h2w]
  · have hnone : s3.view_keys[key3]? = Option.none :=
      List.getElem?_eq_none h3
    simp [KeyItemViewStorage.get, hnone]

/-- Claim C5 witness: the general clauses at concrete states. -/
theorem c5_view_get_double_indirection_witness :
    KeyItemViewStorage.get
        ⟨.writable, [2, 0, 1], true, [0, 1, 2, 3, 4], false, true, ⟨0, true⟩,
          LockSt.unlocked⟩ 1
      = (([2, 0, 1] : List Nat).get? 1).bind
          (VecStorage.get_usize [0, 1, 2, 3, 4])
    ∧ KeyItemViewStorage.get
        ⟨.none, [2, 0, 1], true, [0, 1, 2, 3, 4], false, false, LockSt.unlocked,
          LockSt.unlocked⟩ 0 = Option.none
    ∧ KeyItemViewStorage.get
        ⟨.readable, [2, 0, 1], true, [0, 1, 2, 3, 4], true, false, ⟨1, false⟩,
          LockSt.unlocked⟩ 7 = Option.none
    ∧ KeyItemViewStorage.get
        ⟨.readable, [2, 0, 1], true, [0, 1, 2, 3, 4], true, false, ⟨1, false⟩,
          LockSt.unlocked⟩ 0 = some 2
    ∧ KeyItemViewStorage.get
        ⟨.readable, [2, 0, 1], true, [0, 1, 2, 3, 4], true, false, ⟨1, false⟩,
          LockSt.unlocked⟩ 1 = some 0
    ∧ KeyItemViewStorage.get
        ⟨.readable, [2, 0, 1], true, [0, 1, 2, 3, 4], true, false, ⟨1, false⟩,
          LockSt.unlocked⟩ 2 = some 1
    ∧ KeyItemViewStorage.get
        ⟨.writable, [2, 0, 1], true, [0, 1, 2, 3, 4], false, true, ⟨0, true⟩,
          LockSt.unlocked⟩ 0 = some 2
    ∧ KeyItemViewStorage.get
        ⟨.writable, [2, 0, 1], true, [0, 1, 2, 3, 4], false, true, ⟨0, true⟩,
          LockSt.unlocked⟩ 1 = some 0
    ∧ KeyItemViewStorage.get
        ⟨.writable, [2, 0, 1], true, [0, 1, 2, 3, 4], false, true, ⟨0, true⟩,
          LockSt.unlocked⟩ 2 = some 1 :=
  c5_view_get_double_indirection
    ⟨.writable, [2, 0, 1], true, [0, 1, 2, 3, 4], false, true, ⟨0, true⟩,
      LockSt.unlocked⟩ 1 (Or.inr rfl)
    ⟨.none, [2, 0, 1], true, [0, 1, 2, 3, 4], false, false, LockSt.unlocked,
      LockSt.unlocked⟩ 0 rfl rfl
    ⟨.readable, [2, 0, 1], true, [0, 1, 2, 3, 4], true, false, ⟨1, false⟩,
      LockSt.unlocked⟩ 7 (by decide)

/-- When every selected key is present in the input, the view pair iteration
maps each selected key to the pair of that source key and its input item. -/
theorem keysToItemsList_eq_map (data keys : List Nat)
    (h : ∀ k ∈ keys, k < data.length) :
    keysToItemsList data keys
      = keys.map (fun k => (k, (data.get? k).getD 0)) := by
  induction keys with
  | nil => rfl
  | cons k rest ih =>
    have hk : k < data.length := h k (List.mem_cons_self k rest)
    cases hv : data.get? k with
    | none =>
      have := List.get?_eq_none.mp hv
      omega
    | some v =>
      have hv' : data[k]? = some v := by
        rw [← List.get?_eq_getElem?]; exact hv
      simp [keysToItemsList, VecStorage.get_usize, hv, hv',
        ih (fun x hx => h x (List.mem_cons_of_mem k hx))]

/-- Claim C6 counterexample.  At the documented example — source items
`[0,1,2,3,4]` at keys `0..4`, selection `[2,0,1]`, read guard active — the
pair iterator yields `(2,2),(0,0),(1,1)`: the first components are the
resolved SOURCE keys stored in the selection list, not the view positions
`0,1,2`, so the claimed output `(0,2),(1,0),(2,1)` is not produced. -/
theorem c6_iter_counterexample :
    KeyItemViewStorage.key_item_iter
      ⟨.readable, [2, 0, 1], true, [0, 1, 2, 3, 4], true, false, ⟨1, false⟩,
        LockSt.unlocked⟩
      = .ok [(2, 2), (0, 0), (1, 1)]
    ∧ ([(2, 2), (0, 0), (1, 1)] : List (Nat × Nat)) ≠ [(0, 2), (1, 0), (2, 1)] := by
  exact ⟨rfl, by decide⟩

/-- Claim C6 amended.  With either retained guard active and every selected
key present in the source, the pair iterator yields `(sourceKey, item)` pairs
in selection order — one pair per selected key, so the iteration is finite
(and, being a pure function of the state, restartable). -/
theorem c6_iter_source_key_pairs_in_selection_order (s : ViewSys)
    (hguard : s.read_guard = true ∨ s.write_guard = true)
    (hin : ∀ k ∈ s.view_keys, k < s.input_data.length) :
    KeyItemViewStorage.key_item_iter s
      = .ok (s.view_keys.map (fun k => (k, (s.input_data.get? k).getD 0)))
    ∧ (s.view_keys.map (fun k => (k, (s.input_data.get? k).getD 0))).length
      = s.view_keys.length := by
  refine ⟨?_, by simp⟩
  cases hr : s.read_guard with
  | true =>
    simp only [KeyItemViewStorage.key_item_iter, hr, if_true]
    rw [keysToItemsList_eq_map _ _ hin]
  | false =>
    have hw : s.write_guard = true := by
      rcases hguard with hg | hg
      · rw [hr] at hg; cases hg
      · exact hg
    simp only [KeyItemViewStorage.key_item_iter, hr, hw, if_true,
      Bool.false_eq_true, if_false]
    rw [keysToItemsList_eq_map _ _ hin]

/-- Claim C6 amended witness: the documented example, under the read guard
and under the write guard. -/
theorem c6_iter_source_key_pairs_witness :
    KeyItemViewStorage.key_item_iter
        ⟨.readable, [2, 0, 1], true, [0, 1, 2, 3, 4], true, false, ⟨1, false⟩,
          LockSt.unlocked⟩
      = .ok (([2, 0, 1] : List Nat).map
          (fun k => (k, (([0, 1, 2, 3, 4] : List Nat).get? k).getD 0)))
    ∧ (([2, 0, 1] : List Nat).map
        (fun k => (k, (([0, 1, 2, 3, 4] : List Nat).get? k).getD 0))).length
      = ([2, 0, 1] : List Nat).length :=
  c6_iter_source_key_pairs_in_selection_order
    ⟨.readable, [2, 0, 1], true, [0, 1, 2, 3, 4], true, false, ⟨1, false⟩,
      LockSt.unlocked⟩
    (Or.inl rfl) (by decide)

/-- Claim C7.  From a quiescent state (status `None`, unlocked input and view
cells, no retained guards), `create_read_view` succeeds and retains a shared
guard on the input cell, so every direct exclusive try-lock on the input
fails; `clear_view` then succeeds, clears the selected-key list, drops the
retained guard, and the same direct exclusive try-lock succeeds again. -/
theorem c7_read_view_blocks_direct_write_until_clear
    (s : ViewSys) (keys : List Nat)
    (hstatus : s.status = InputStorageLockStatus.none)
    (hvl : s.view_lock = LockSt.unlocked)
    (hinput : s.input_set = true)
    (hil : s.input_lock = LockSt.unlocked)
    (hg : s.read_guard = false) :
    (ViewStorageController.create_read_view s keys).outcome = .ok ()
    ∧ (ViewStorageController.create_read_view s keys).state.input_lock.canWrite
      = false
    ∧ (ViewStorageController.clear_view
        (ViewStorageController.create_read_view s keys).state).outcome = .ok ()
    ∧ (ViewStorageController.clear_view
        (ViewStorageController.create_read_view s keys).state).state.view_keys
      = []
    ∧ (ViewStorageController.clear_view
        (ViewStorageController.create_read_view s keys).state).state.read_guard
      = false
    ∧ (ViewStorageController.clear_view
        (ViewStorageController.create_read_view s keys).state).state.input_lock.canWrite
      = true := by
  simp [ViewStorageController.create_read_view, ViewStorageController.clear_view,
    KeyItemViewStorage.clear_view_backend, hstatus, hvl, hinput, hil, hg,
    LockSt.unlocked, LockSt.canWrite]

/-- Claim C7 witness: the lock trace at a concrete state. -/
theorem c7_read_view_blocks_direct_write_witness :
    (ViewStorageController.create_read_view
        ⟨.none, [], true, [0, 1, 2, 3, 4], false, false, LockSt.unlocked,
          LockSt.unlocked⟩ [2, 0, 1]).outcome = .ok ()
    ∧ (ViewStorageController.create_read_view
        ⟨.none, [], true, [0, 1, 2, 3, 4], false, false, LockSt.unlocked,
          LockSt.unlocked⟩ [2, 0, 1]).state.input_lock.canWrite = false
    ∧ (ViewStorageController.clear_view
        (ViewStorageController.create_read_view
          ⟨.none, [], true, [0, 1, 2, 3, 4], false, false, LockSt.unlocked,
            LockSt.unlocked⟩ [2, 0, 1]).state).outcome = .ok ()
    ∧ (ViewStorageController.clear_view
        (ViewStorageController.create_read_view
          ⟨.none, [], true, [0, 1, 2, 3, 4], false, false, LockSt.unlocked,
            LockSt.unlocked⟩ [2, 0, 1]).state).state.view_keys = []
    ∧ (ViewStorageController.clear_view
        (ViewStorageController.create_read_view
          ⟨.none, [], true, [0, 1, 2, 3, 4], false, false, LockSt.unlocked,
            LockSt.unlocked⟩ [2, 0, 1]).state).state.read_guard = false
    ∧ (ViewStorageController.clear_view
        (ViewStorageController.create_read_view
          ⟨.none, [], true, [0, 1, 2, 3, 4], false, false, LockSt.unlocked,
            LockSt.unlocked⟩ [2, 0, 1]).state).state.input_lock.canWrite
      = true :=
  c7_read_view_blocks_direct_write_until_clear
    ⟨.none, [], true, [0, 1, 2, 3, 4], false, false, LockSt.unlocked,
      LockSt.unlocked⟩ [2, 0, 1] rfl rfl rfl rfl rfl

/-- Claim C8 counterexample.  On a `VecStorage` holding `[0,1,2]`, looking up
the `u128` key value `2^64` — a key that cannot be converted to the `usize`
index domain — panics inside `key_to_index` instead of producing the normal
not-found outcome `None` that the claim promises for per-key lookups. -/
theorem c8_unconvertible_key_lookup_counterexample :
    VecStorage.get_u128 [0, 1, 2] (2 ^ 64)
      = .panicked "Key could not be converted to usize"
    ∧ VecStorage.get_u128 [0, 1, 2] (2 ^ 64) ≠ .ok Option.none := by
  constructor
  · rfl
  · decide

/-- Claim C8 amended.  Construction of an index-oriented backend with a key
type that does not support indexing is fatal (the `supports_index` assertion
panics), matching the claim; a supporting key type constructs normally.
During a per-key lookup, a key VALUE that converts to the index domain but
lies outside the stored range yields the normal not-found `None` — but a key
value that cannot be converted to `usize` panics in `key_to_index` rather
than yielding `None`. -/
theorem c8_key_domain_asymmetry (data : List Nat) (k bigK : Nat)
    (hk : k ≤ usizeMax) (hrange : data.length ≤ k) (hbig : usizeMax < bigK) :
    VecStorage.new_checked false data
      = .panicked "assertion failed: Key::supports_index()"
    ∧ VecStorage.new_checked true data = .ok data
    ∧ VecStorage.get_u128 data k = .ok Option.none
    ∧ VecStorage.get_u128 data bigK
      = .panicked "Key could not be converted to usize" := by
  refine ⟨rfl, rfl, ?_, ?_⟩
  · simp [VecStorage.get_u128, key_to_index_u128, hk, hrange]
  · have : ¬ bigK ≤ usizeMax := by omega
    simp [VecStorage.get_u128, key_to_index_u128, this]

/-- Claim C8 amended witness: `[0,1,2]` with in-domain out-of-range key `7`
and unconvertible key `2^64`. -/
theorem c8_key_domain_asymmetry_witness :
    VecStorage.new_checked false [0, 1, 2]
      = .panicked "assertion failed: Key::supports_index()"
    ∧ VecStorage.new_checked true [0, 1, 2] = .ok [0, 1, 2]
    ∧ VecStorage.get_u128 [0, 1, 2] 7 = .ok Option.none
    ∧ VecStorage.get_u128 [0, 1, 2] (2 ^ 64)
      = .panicked "Key could not be converted to usize" :=
  c8_key_domain_asymmetry [0, 1, 2] 7 (2 ^ 64) (by decide) (by decide)
    (by norm_num [usizeMax])

/-- Claim C9 counterexample.  A view with an active retained WRITE guard,
selection `[0]` and source `[5]`: position `0` resolves to source key `0`,
which the source does contain, yet `contains 0` returns `false` — the
`KeyStorage` impl consults only the read guard (unlike `get`, which was
extended to work through either guard). -/
theorem c9_contains_ignores_write_guard_counterexample :
    KeyItemViewStorage.contains
      ⟨.writable, [0], true, [5], false, true, ⟨0, true⟩, LockSt.unlocked⟩ 0
      = false
    ∧ (⟨.writable, [0], true, [5], false, true, ⟨0, true⟩,
        LockSt.unlocked⟩ : ViewSys).write_guard = true
    ∧ ([0] : List Nat).get? 0 = some 0
    ∧ VecStorage.contains_usize [5] 0 = true := by
  decide

/-- Claim C9 amended.  Only with the retained READ guard active does
`contains` treat the view key as a position in the selected-key list,
resolve it to a source key and check source containment; with no read guard
active — including when only the write guard is held — it returns `false`. -/
theorem c9_contains_via_read_guard_only (s : ViewSys) (key : Nat)
    (hr : s.read_guard = true)
    (s2 : ViewSys) (key2 : Nat) (hr2 : s2.read_guard = false) :
    KeyItemViewStorage.contains s key
      = ((s.view_keys.get? key).map
          (VecStorage.contains_usize s.input_data)).getD false
    ∧ KeyItemViewStorage.contains s2 key2 = false := by
  constructor
  · simp only [KeyItemViewStorage.contains, hr, if_true]
    cases s.view_keys.get? key <;> simp
  · simp [KeyItemViewStorage.contains, hr2]

/-- Claim C9 amended witness: read-guard resolution at the documented
example, and the write-guard state returning `false`. -/
theorem c9_contains_via_read_guard_only_witness :
    KeyItemViewStorage.contains
        ⟨.readable, [2, 0, 1], true, [0, 1, 2, 3, 4], true, false, ⟨1, false⟩,
          LockSt.unlocked⟩ 1
      = ((([2, 0, 1] : List Nat).get? 1).map
          (VecStorage.contains_usize [0, 1, 2, 3, 4])).getD false
    ∧ KeyItemViewStorage.contains
        ⟨.writable, [0], true, [5], false, true, ⟨0, true⟩, LockSt.unlocked⟩ 0
      = false :=
  c9_contains_via_read_guard_only
    ⟨.readable, [2, 0, 1], true, [0, 1, 2, 3, 4], true, false, ⟨1, false⟩,
      LockSt.unlocked⟩ 1 rfl
    ⟨.writable, [0], true, [5], false, true, ⟨0, true⟩, LockSt.unlocked⟩ 0 rfl
